import Mathlib

/-!
# Verification of the AQI derivation engine of `dashboard.py`

This file embeds, in Lean 4, the core air-quality-index (AQI) computation of
the dashboard: the per-pollutant breakpoint interpolation
(`calculate_aqi_pm25`, `calculate_aqi_co`), the cross-pollutant combination
(`df['aqi'] = df[['aqi_pm25','aqi_co']].max(axis=1)`), and the overall
classification (`np.select` over threshold conditions).

Concentrations are modelled as exact rationals (`ℚ`); indices as integers
(`ℤ`).  Python's builtin `round` rounds to the nearest integer with ties to
even, which `pythonRound` reproduces.  A missing concentration in a pandas
column is `NaN`; every comparison with `NaN` is false, so the breakpoint scan
falls through to its out-of-range result, and the row-wise `max` skips the
missing value (`skipna=True`); `applyPM25`/`applyCO`/`pandasMax` encode
exactly this behaviour for the `none` case.
-/

/-- Python's builtin `round`: nearest integer, ties to even (banker's
rounding).  This is what `round(aqi)` performs in `dashboard.py`. -/
def pythonRound (q : ℚ) : ℤ :=
  if q - Int.floor q < 1/2 then Int.floor q
  else if 1/2 < q - Int.floor q then Int.floor q + 1
  else if Int.floor q % 2 = 0 then Int.floor q else Int.floor q + 1

/-- Rounding to the nearest integer with ties rounded half-up, as the spec
describes the rounding step.  Used only to compare against the code's
`pythonRound`. -/
def roundHalfUp (q : ℚ) : ℤ := Int.floor (q + 1/2)

/-- One row of a `breakpoints` table of `dashboard.py`:
`(bp_low, bp_high, aqi_low, aqi_high, category, color)`. -/
structure Breakpoint where
  lo : ℚ
  hi : ℚ
  ilo : ℤ
  ihi : ℤ
  cat : String
  color : String
deriving DecidableEq, Repr

/-- The tuple returned by `calculate_aqi_pm25` / `calculate_aqi_co`:
`(round(aqi) | None, category, color)`. -/
structure AQIResult where
  index : Option ℤ
  category : String
  color : String
deriving DecidableEq, Repr

/-- The linear interpolation of the loop body:
`((aqi_high - aqi_low) / (bp_high - bp_low)) * (conc - bp_low) + aqi_low`. -/
def interp (lo hi : ℚ) (ilo ihi : ℤ) (c : ℚ) : ℚ :=
  ((ihi : ℚ) - (ilo : ℚ)) / (hi - lo) * (c - lo) + (ilo : ℚ)

/-- The `for bp_low, bp_high, ... in breakpoints:` loop shared by both
calculator functions: return at the first segment with
`bp_low <= conc <= bp_high`, else fall through to
`(None, "Fuera de rango", "#000000")`. -/
def scanBreakpoints : List Breakpoint → ℚ → AQIResult
  | [], _ => ⟨none, "Fuera de rango", "#000000"⟩
  | bp :: rest, c =>
      if bp.lo ≤ c ∧ c ≤ bp.hi then
        ⟨some (pythonRound (interp bp.lo bp.hi bp.ilo bp.ihi c)), bp.cat, bp.color⟩
      else scanBreakpoints rest c

/-- The PM2.5 breakpoint table of `calculate_aqi_pm25`. -/
def pm25_breakpoints : List Breakpoint :=
  [⟨0, 12, 0, 50, "Bueno", "#00E400"⟩,
   ⟨12.1, 35.4, 51, 100, "Moderado", "#FFFF00"⟩,
   ⟨35.5, 55.4, 101, 150, "Insalubre para Grupos Sensibles", "#FF7E00"⟩,
   ⟨55.5, 150.4, 151, 200, "Insalubre", "#FF0000"⟩,
   ⟨150.5, 250.4, 201, 300, "Muy Insalubre", "#99004C"⟩,
   ⟨250.5, 500.4, 301, 500, "Peligroso", "#7E0023"⟩]

/-- The CO breakpoint table of `calculate_aqi_co`. -/
def co_breakpoints : List Breakpoint :=
  [⟨0, 4.4, 0, 50, "Bueno", "#00E400"⟩,
   ⟨4.5, 9.4, 51, 100, "Moderado", "#FFFF00"⟩,
   ⟨9.5, 12.4, 101, 150, "Insalubre para Grupos Sensibles", "#FF7E00"⟩,
   ⟨12.5, 15.4, 151, 200, "Insalubre", "#FF0000"⟩,
   ⟨15.5, 30.4, 201, 300, "Muy Insalubre", "#99004C"⟩,
   ⟨30.5, 50.4, 301, 500, "Peligroso", "#7E0023"⟩]

/-- `calculate_aqi_pm25` of `dashboard.py`. -/
def calculate_aqi_pm25 (pm25 : ℚ) : AQIResult :=
  scanBreakpoints pm25_breakpoints pm25

/-- `calculate_aqi_co` of `dashboard.py`. -/
def calculate_aqi_co (co : ℚ) : AQIResult :=
  scanBreakpoints co_breakpoints co

/-- The first segment matched by the scan order, when one exists. -/
def firstMatch : List Breakpoint → ℚ → Option Breakpoint
  | [], _ => none
  | bp :: rest, c => if bp.lo ≤ c ∧ c ≤ bp.hi then some bp else firstMatch rest c

/-- One row of the input DataFrame: the pollutant concentrations and the
pass-through ambient fields.  `none` models a missing (`NaN`) value. -/
structure Reading where
  pm25 : Option ℚ
  co : Option ℚ
  pm10 : Option ℚ
  temp : Option ℚ
  humidity : Option ℚ
deriving DecidableEq, Repr

/-- `df['pm25'].apply(calculate_aqi_pm25)` on one cell: a missing value is
`NaN`, every comparison with `NaN` is false, so the scan matches no segment
and returns its fall-through result. -/
def applyPM25 : Option ℚ → AQIResult
  | none => ⟨none, "Fuera de rango", "#000000"⟩
  | some c => calculate_aqi_pm25 c

/-- `df['co'].apply(calculate_aqi_co)` on one cell; `NaN` as in `applyPM25`. -/
def applyCO : Option ℚ → AQIResult
  | none => ⟨none, "Fuera de rango", "#000000"⟩
  | some c => calculate_aqi_co c

/-- Row-wise `df[['aqi_pm25','aqi_co']].max(axis=1)` with pandas' default
`skipna=True`: missing entries are skipped; all missing gives `NaN`. -/
def pandasMax : Option ℤ → Option ℤ → Option ℤ
  | none, none => none
  | some a, none => some a
  | none, some b => some b
  | some a, some b => some (max a b)

/-- `np.select(conditions, values, default)`: the value of the first true
condition, else the default. -/
def npSelect {α : Type} : List (Bool × α) → α → α
  | [], d => d
  | (b, v) :: rest, d => if b then v else npSelect rest d

/-- One condition `df['aqi'] <= b` on one cell: false on a missing (`NaN`)
index. -/
def nanLe (x : Option ℤ) (b : ℤ) : Bool :=
  match x with
  | none => false
  | some a => decide (a ≤ b)

/-- `df['category'] = np.select(conditions, categories, default='Fuera de rango')`. -/
def aqiCategory (oi : Option ℤ) : String :=
  npSelect [(nanLe oi 50, "Bueno"),
            (nanLe oi 100, "Moderado"),
            (nanLe oi 150, "Insalubre para Grupos Sensibles"),
            (nanLe oi 200, "Insalubre"),
            (nanLe oi 300, "Muy Insalubre"),
            (nanLe oi 500, "Peligroso")] "Fuera de rango"

/-- `df['color'] = np.select(conditions, colors, default='#000000')`. -/
def aqiColor (oi : Option ℤ) : String :=
  npSelect [(nanLe oi 50, "#00E400"),
            (nanLe oi 100, "#FFFF00"),
            (nanLe oi 150, "#FF7E00"),
            (nanLe oi 200, "#FF0000"),
            (nanLe oi 300, "#99004C"),
            (nanLe oi 500, "#7E0023")] "#000000"

/-- The derived columns attached to one row: per-pollutant results, overall
index, overall category and color. -/
structure CompositeAQIResult where
  perPM25 : AQIResult
  perCO : AQIResult
  overallIndex : Option ℤ
  overallCategory : String
  overallColor : String
deriving DecidableEq, Repr

/-- The whole per-row derivation of `dashboard.py` lines 83-102. -/
def combine (r : Reading) : CompositeAQIResult :=
  { perPM25 := applyPM25 r.pm25
    perCO := applyCO r.co
    overallIndex := pandasMax (applyPM25 r.pm25).index (applyCO r.co).index
    overallCategory := aqiCategory (pandasMax (applyPM25 r.pm25).index (applyCO r.co).index)
    overallColor := aqiColor (pandasMax (applyPM25 r.pm25).index (applyCO r.co).index) }

lemma pythonRound_lower (q : ℚ) (n : ℤ) (h : (n : ℚ) ≤ q) : n ≤ pythonRound q := by
  have hn : n ≤ Int.floor q := Int.le_floor.mpr h
  unfold pythonRound
  split_ifs <;> omega

lemma pythonRound_upper (q : ℚ) (m : ℤ) (h : q ≤ (m : ℚ)) : pythonRound q ≤ m := by
  have h1 : Int.floor q ≤ m := by
    have := Int.floor_mono h
    simpa using this
  have hfl : (Int.floor q : ℚ) ≤ q := Int.floor_le q
  unfold pythonRound
  split_ifs with h2 h3 h4
  · exact h1
  · push_neg at h2
    have hlt : (Int.floor q : ℚ) < (m : ℚ) := by linarith
    have : Int.floor q < m := by exact_mod_cast hlt
    omega
  · exact h1
  · push_neg at h2
    have hlt : (Int.floor q : ℚ) < (m : ℚ) := by linarith
    have : Int.floor q < m := by exact_mod_cast hlt
    omega

lemma le_pythonRound (q : ℚ) : q - 1/2 ≤ (pythonRound q : ℚ) := by
  have h0 : (Int.floor q : ℚ) ≤ q := Int.floor_le q
  have h1 : q < Int.floor q + 1 := Int.lt_floor_add_one q
  unfold pythonRound
  split_ifs with h2 h3 h4
  · linarith
  · push_cast
    linarith
  · push_neg at h3
    linarith
  · push_cast
    linarith

lemma pythonRound_le (q : ℚ) : (pythonRound q : ℚ) ≤ q + 1/2 := by
  have h0 : (Int.floor q : ℚ) ≤ q := Int.floor_le q
  unfold pythonRound
  split_ifs with h2 h3 h4
  · linarith
  · push_neg at h2
    push_cast
    linarith
  · linarith
  · push_neg at h2
    push_cast
    linarith

lemma pythonRound_mono {q1 q2 : ℚ} (h : q1 ≤ q2) : pythonRound q1 ≤ pythonRound q2 := by
  by_contra hc
  push_neg at hc
  have h1 : (pythonRound q2 : ℚ) + 1 ≤ (pythonRound q1 : ℚ) := by
    have := Int.lt_iff_add_one_le.mp hc
    exact_mod_cast this
  have h2 := pythonRound_le q1
  have h3 := le_pythonRound q2
  have h4 : q2 ≤ q1 := by linarith
  have heq : q1 = q2 := le_antisymm h h4
  rw [heq] at hc
  exact lt_irrefl _ hc

lemma interp_left (lo hi : ℚ) (ilo ihi : ℤ) : interp lo hi ilo ihi lo = ilo := by
  simp [interp]

lemma interp_right {lo hi : ℚ} (ilo ihi : ℤ) (hlh : lo < hi) :
    interp lo hi ilo ihi hi = ihi := by
  unfold interp
  rw [div_mul_cancel₀]
  · ring
  · exact sub_ne_zero.mpr (ne_of_gt hlh)

lemma interp_mono {lo hi : ℚ} {ilo ihi : ℤ} (hlh : lo < hi) (hii : ilo ≤ ihi)
    {c1 c2 : ℚ} (h : c1 ≤ c2) :
    interp lo hi ilo ihi c1 ≤ interp lo hi ilo ihi c2 := by
  unfold interp
  have hii' : (0 : ℚ) ≤ (ihi : ℚ) - (ilo : ℚ) := by
    have := sub_nonneg.mpr hii
    exact_mod_cast this
  have hs : (0 : ℚ) ≤ ((ihi : ℚ) - (ilo : ℚ)) / (hi - lo) :=
    div_nonneg hii' (by linarith)
  have := mul_le_mul_of_nonneg_left (by linarith : c1 - lo ≤ c2 - lo) hs
  linarith

lemma ilo_le_interp {lo hi : ℚ} {ilo ihi : ℤ} (hlh : lo < hi) (hii : ilo ≤ ihi)
    {c : ℚ} (h1 : lo ≤ c) : (ilo : ℚ) ≤ interp lo hi ilo ihi c := by
  have := interp_mono hlh hii h1
  rwa [interp_left] at this

lemma interp_le_ihi {lo hi : ℚ} {ilo ihi : ℤ} (hlh : lo < hi) (hii : ilo ≤ ihi)
    {c : ℚ} (h2 : c ≤ hi) : interp lo hi ilo ihi c ≤ (ihi : ℚ) := by
  have := interp_mono hlh hii h2
  rwa [interp_right ilo ihi hlh] at this

lemma le_round_interp {lo hi : ℚ} {ilo ihi : ℤ} (hlh : lo < hi) (hii : ilo ≤ ihi)
    {c : ℚ} (h1 : lo ≤ c) : ilo ≤ pythonRound (interp lo hi ilo ihi c) :=
  pythonRound_lower _ _ (ilo_le_interp hlh hii h1)

lemma round_interp_le {lo hi : ℚ} {ilo ihi : ℤ} (hlh : lo < hi) (hii : ilo ≤ ihi)
    {c : ℚ} (h2 : c ≤ hi) : pythonRound (interp lo hi ilo ihi c) ≤ ihi :=
  pythonRound_upper _ _ (interp_le_ihi hlh hii h2)

lemma round_interp_mono {lo hi : ℚ} {ilo ihi : ℤ} (hlh : lo < hi) (hii : ilo ≤ ihi)
    {c1 c2 : ℚ} (h : c1 ≤ c2) :
    pythonRound (interp lo hi ilo ihi c1) ≤ pythonRound (interp lo hi ilo ihi c2) :=
  pythonRound_mono (interp_mono hlh hii h)

lemma scan_nil (c : ℚ) :
    scanBreakpoints [] c = ⟨none, "Fuera de rango", "#000000"⟩ := rfl

lemma scan_cons (bp : Breakpoint) (rest : List Breakpoint) (c : ℚ) :
    scanBreakpoints (bp :: rest) c =
      if bp.lo ≤ c ∧ c ≤ bp.hi then
        ⟨some (pythonRound (interp bp.lo bp.hi bp.ilo bp.ihi c)), bp.cat, bp.color⟩
      else scanBreakpoints rest c := rfl

lemma firstMatch_cons (bp : Breakpoint) (rest : List Breakpoint) (c : ℚ) :
    firstMatch (bp :: rest) c =
      if bp.lo ≤ c ∧ c ≤ bp.hi then some bp else firstMatch rest c := rfl

lemma scan_of_firstMatch (bps : List Breakpoint) (c : ℚ) (bp : Breakpoint)
    (h : firstMatch bps c = some bp) :
    scanBreakpoints bps c =
      ⟨some (pythonRound (interp bp.lo bp.hi bp.ilo bp.ihi c)), bp.cat, bp.color⟩ := by
  induction bps with
  | nil => exact absurd h (by simp [firstMatch])
  | cons hd tl ih =>
    rw [firstMatch_cons] at h
    rw [scan_cons]
    by_cases hc : hd.lo ≤ c ∧ c ≤ hd.hi
    · rw [if_pos hc] at h ⊢
      obtain rfl : hd = bp := Option.some.inj h
      rfl
    · rw [if_neg hc] at h ⊢
      exact ih h

lemma scan_no_match (bps : List Breakpoint) (c : ℚ)
    (h : ∀ bp ∈ bps, ¬(bp.lo ≤ c ∧ c ≤ bp.hi)) :
    scanBreakpoints bps c = ⟨none, "Fuera de rango", "#000000"⟩ := by
  induction bps with
  | nil => rfl
  | cons hd tl ih =>
    rw [scan_cons, if_neg (h hd (List.mem_cons_self hd tl))]
    exact ih (fun bp hbp => h bp (List.mem_cons_of_mem hd hbp))

lemma pm25_eval1 {c : ℚ} (h1 : 0 ≤ c) (h2 : c ≤ 12) :
    calculate_aqi_pm25 c =
      ⟨some (pythonRound (interp 0 12 0 50 c)), "Bueno", "#00E400"⟩ := by
  unfold calculate_aqi_pm25 pm25_breakpoints
  rw [scan_cons, if_pos ⟨h1, h2⟩]

lemma pm25_eval2 {c : ℚ} (h1 : (12.1 : ℚ) ≤ c) (h2 : c ≤ 35.4) :
    calculate_aqi_pm25 c =
      ⟨some (pythonRound (interp 12.1 35.4 51 100 c)), "Moderado", "#FFFF00"⟩ := by
  have n1 : ¬((0 : ℚ) ≤ c ∧ c ≤ 12) := by
    rintro ⟨-, h⟩
    norm_num at h1 h2 ⊢
    linarith
  unfold calculate_aqi_pm25 pm25_breakpoints
  rw [scan_cons, if_neg n1, scan_cons, if_pos ⟨h1, h2⟩]

lemma pm25_eval3 {c : ℚ} (h1 : (35.5 : ℚ) ≤ c) (h2 : c ≤ 55.4) :
    calculate_aqi_pm25 c =
      ⟨some (pythonRound (interp 35.5 55.4 101 150 c)),
        "Insalubre para Grupos Sensibles", "#FF7E00"⟩ := by
  have n1 : ¬((0 : ℚ) ≤ c ∧ c ≤ 12) := by rintro ⟨-, h⟩; linarith
  have n2 : ¬((12.1 : ℚ) ≤ c ∧ c ≤ 35.4) := by rintro ⟨-, h⟩; linarith
  unfold calculate_aqi_pm25 pm25_breakpoints
  rw [scan_cons, if_neg n1, scan_cons, if_neg n2, scan_cons, if_pos ⟨h1, h2⟩]

lemma pm25_eval4 {c : ℚ} (h1 : (55.5 : ℚ) ≤ c) (h2 : c ≤ 150.4) :
    calculate_aqi_pm25 c =
      ⟨some (pythonRound (interp 55.5 150.4 151 200 c)), "Insalubre", "#FF0000"⟩ := by
  have n1 : ¬((0 : ℚ) ≤ c ∧ c ≤ 12) := by rintro ⟨-, h⟩; linarith
  have n2 : ¬((12.1 : ℚ) ≤ c ∧ c ≤ 35.4) := by rintro ⟨-, h⟩; linarith
  have n3 : ¬((35.5 : ℚ) ≤ c ∧ c ≤ 55.4) := by rintro ⟨-, h⟩; linarith
  unfold calculate_aqi_pm25 pm25_breakpoints
  rw [scan_cons, if_neg n1, scan_cons, if_neg n2, scan_cons, if_neg n3,
    scan_cons, if_pos ⟨h1, h2⟩]

lemma pm25_eval5 {c : ℚ} (h1 : (150.5 : ℚ) ≤ c) (h2 : c ≤ 250.4) :
    calculate_aqi_pm25 c =
      ⟨some (pythonRound (interp 150.5 250.4 201 300 c)), "Muy Insalubre", "#99004C"⟩ := by
  have n1 : ¬((0 : ℚ) ≤ c ∧ c ≤ 12) := by rintro ⟨-, h⟩; linarith
  have n2 : ¬((12.1 : ℚ) ≤ c ∧ c ≤ 35.4) := by rintro ⟨-, h⟩; linarith
  have n3 : ¬((35.5 : ℚ) ≤ c ∧ c ≤ 55.4) := by rintro ⟨-, h⟩; linarith
  have n4 : ¬((55.5 : ℚ) ≤ c ∧ c ≤ 150.4) := by rintro ⟨-, h⟩; linarith
  unfold calculate_aqi_pm25 pm25_breakpoints
  rw [scan_cons, if_neg n1, scan_cons, if_neg n2, scan_cons, if_neg n3,
    scan_cons, if_neg n4, scan_cons, if_pos ⟨h1, h2⟩]

lemma pm25_eval6 {c : ℚ} (h1 : (250.5 : ℚ) ≤ c) (h2 : c ≤ 500.4) :
    calculate_aqi_pm25 c =
      ⟨some (pythonRound (interp 250.5 500.4 301 500 c)), "Peligroso", "#7E0023"⟩ := by
  have n1 : ¬((0 : ℚ) ≤ c ∧ c ≤ 12) := by rintro ⟨-, h⟩; linarith
  have n2 : ¬((12.1 : ℚ) ≤ c ∧ c ≤ 35.4) := by rintro ⟨-, h⟩; linarith
  have n3 : ¬((35.5 : ℚ) ≤ c ∧ c ≤ 55.4) := by rintro ⟨-, h⟩; linarith
  have n4 : ¬((55.5 : ℚ) ≤ c ∧ c ≤ 150.4) := by rintro ⟨-, h⟩; linarith
  have n5 : ¬((150.5 : ℚ) ≤ c ∧ c ≤ 250.4) := by rintro ⟨-, h⟩; linarith
  unfold calculate_aqi_pm25 pm25_breakpoints
  rw [scan_cons, if_neg n1, scan_cons, if_neg n2, scan_cons, if_neg n3,
    scan_cons, if_neg n4, scan_cons, if_neg n5, scan_cons, if_pos ⟨h1, h2⟩]

lemma co_eval1 {c : ℚ} (h1 : 0 ≤ c) (h2 : c ≤ 4.4) :
    calculate_aqi_co c =
      ⟨some (pythonRound (interp 0 4.4 0 50 c)), "Bueno", "#00E400"⟩ := by
  unfold calculate_aqi_co co_breakpoints
  rw [scan_cons, if_pos ⟨h1, h2⟩]

lemma co_eval2 {c : ℚ} (h1 : (4.5 : ℚ) ≤ c) (h2 : c ≤ 9.4) :
    calculate_aqi_co c =
      ⟨some (pythonRound (interp 4.5 9.4 51 100 c)), "Moderado", "#FFFF00"⟩ := by
  have n1 : ¬((0 : ℚ) ≤ c ∧ c ≤ 4.4) := by rintro ⟨-, h⟩; linarith
  unfold calculate_aqi_co co_breakpoints
  rw [scan_cons, if_neg n1, scan_cons, if_pos ⟨h1, h2⟩]

lemma co_eval3 {c : ℚ} (h1 : (9.5 : ℚ) ≤ c) (h2 : c ≤ 12.4) :
    calculate_aqi_co c =
      ⟨some (pythonRound (interp 9.5 12.4 101 150 c)),
        "Insalubre para Grupos Sensibles", "#FF7E00"⟩ := by
  have n1 : ¬((0 : ℚ) ≤ c ∧ c ≤ 4.4) := by rintro ⟨-, h⟩; linarith
  have n2 : ¬((4.5 : ℚ) ≤ c ∧ c ≤ 9.4) := by rintro ⟨-, h⟩; linarith
  unfold calculate_aqi_co co_breakpoints
  rw [scan_cons, if_neg n1, scan_cons, if_neg n2, scan_cons, if_pos ⟨h1, h2⟩]

lemma co_eval4 {c : ℚ} (h1 : (12.5 : ℚ) ≤ c) (h2 : c ≤ 15.4) :
    calculate_aqi_co c =
      ⟨some (pythonRound (interp 12.5 15.4 151 200 c)), "Insalubre", "#FF0000"⟩ := by
  have n1 : ¬((0 : ℚ) ≤ c ∧ c ≤ 4.4) := by rintro ⟨-, h⟩; linarith
  have n2 : ¬((4.5 : ℚ) ≤ c ∧ c ≤ 9.4) := by rintro ⟨-, h⟩; linarith
  have n3 : ¬((9.5 : ℚ) ≤ c ∧ c ≤ 12.4) := by rintro ⟨-, h⟩; linarith
  unfold calculate_aqi_co co_breakpoints
  rw [scan_cons, if_neg n1, scan_cons, if_neg n2, scan_cons, if_neg n3,
    scan_cons, if_pos ⟨h1, h2⟩]

lemma co_eval5 {c : ℚ} (h1 : (15.5 : ℚ) ≤ c) (h2 : c ≤ 30.4) :
    calculate_aqi_co c =
      ⟨some (pythonRound (interp 15.5 30.4 201 300 c)), "Muy Insalubre", "#99004C"⟩ := by
  have n1 : ¬((0 : ℚ) ≤ c ∧ c ≤ 4.4) := by rintro ⟨-, h⟩; linarith
  have n2 : ¬((4.5 : ℚ) ≤ c ∧ c ≤ 9.4) := by rintro ⟨-, h⟩; linarith
  have n3 : ¬((9.5 : ℚ) ≤ c ∧ c ≤ 12.4) := by rintro ⟨-, h⟩; linarith
  have n4 : ¬((12.5 : ℚ) ≤ c ∧ c ≤ 15.4) := by rintro ⟨-, h⟩; linarith
  unfold calculate_aqi_co co_breakpoints
  rw [scan_cons, if_neg n1, scan_cons, if_neg n2, scan_cons, if_neg n3,
    scan_cons, if_neg n4, scan_cons, if_pos ⟨h1, h2⟩]

lemma co_eval6 {c : ℚ} (h1 : (30.5 : ℚ) ≤ c) (h2 : c ≤ 50.4) :
    calculate_aqi_co c =
      ⟨some (pythonRound (interp 30.5 50.4 301 500 c)), "Peligroso", "#7E0023"⟩ := by
  have n1 : ¬((0 : ℚ) ≤ c ∧ c ≤ 4.4) := by rintro ⟨-, h⟩; linarith
  have n2 : ¬((4.5 : ℚ) ≤ c ∧ c ≤ 9.4) := by rintro ⟨-, h⟩; linarith
  have n3 : ¬((9.5 : ℚ) ≤ c ∧ c ≤ 12.4) := by rintro ⟨-, h⟩; linarith
  have n4 : ¬((12.5 : ℚ) ≤ c ∧ c ≤ 15.4) := by rintro ⟨-, h⟩; linarith
  have n5 : ¬((15.5 : ℚ) ≤ c ∧ c ≤ 30.4) := by rintro ⟨-, h⟩; linarith
  unfold calculate_aqi_co co_breakpoints
  rw [scan_cons, if_neg n1, scan_cons, if_neg n2, scan_cons, if_neg n3,
    scan_cons, if_neg n4, scan_cons, if_neg n5, scan_cons, if_pos ⟨h1, h2⟩]

lemma no_match_pm25_neg_one :
    ∀ bp ∈ pm25_breakpoints, ¬(bp.lo ≤ (-1 : ℚ) ∧ (-1 : ℚ) ≤ bp.hi) := by
  intro bp hbp
  simp only [pm25_breakpoints, List.mem_cons, List.not_mem_nil, or_false] at hbp
  rcases hbp with rfl | rfl | rfl | rfl | rfl | rfl <;> rintro ⟨h1, h2⟩ <;> norm_num at h1

lemma no_match_pm25_ten_thousand :
    ∀ bp ∈ pm25_breakpoints, ¬(bp.lo ≤ (10000 : ℚ) ∧ (10000 : ℚ) ≤ bp.hi) := by
  intro bp hbp
  simp only [pm25_breakpoints, List.mem_cons, List.not_mem_nil, or_false] at hbp
  rcases hbp with rfl | rfl | rfl | rfl | rfl | rfl <;> rintro ⟨h1, h2⟩ <;> norm_num at h2

lemma no_match_co_neg_one :
    ∀ bp ∈ co_breakpoints, ¬(bp.lo ≤ (-1 : ℚ) ∧ (-1 : ℚ) ≤ bp.hi) := by
  intro bp hbp
  simp only [co_breakpoints, List.mem_cons, List.not_mem_nil, or_false] at hbp
  rcases hbp with rfl | rfl | rfl | rfl | rfl | rfl <;> rintro ⟨h1, h2⟩ <;> norm_num at h1

lemma no_match_co_ten_thousand :
    ∀ bp ∈ co_breakpoints, ¬(bp.lo ≤ (10000 : ℚ) ∧ (10000 : ℚ) ≤ bp.hi) := by
  intro bp hbp
  simp only [co_breakpoints, List.mem_cons, List.not_mem_nil, or_false] at hbp
  rcases hbp with rfl | rfl | rfl | rfl | rfl | rfl <;> rintro ⟨h1, h2⟩ <;> norm_num at h2

/-- C1 (counterexample): at PM2.5 concentration `3/5` the interpolated value is
exactly `5/2`; the code's `round` (ties to even) returns index `2`, while the
claimed half-up rounding would give `3`. -/
theorem c1_counterexample :
    firstMatch pm25_breakpoints (3/5) = some ⟨0, 12, 0, 50, "Bueno", "#00E400"⟩ ∧
    (calculate_aqi_pm25 (3/5)).index = some 2 ∧
    roundHalfUp (interp 0 12 0 50 (3/5)) = 3 ∧ (2 : ℤ) ≠ 3 := by
  refine ⟨?_, ?_, ?_, by norm_num⟩
  · unfold pm25_breakpoints
    rw [firstMatch_cons,
      if_pos ⟨show (0 : ℚ) ≤ 3/5 by norm_num, show (3 : ℚ)/5 ≤ 12 by norm_num⟩]
  · rw [pm25_eval1 (by norm_num) (by norm_num)]
    norm_num [interp, pythonRound]
  · norm_num [interp, roundHalfUp]

/-- C1 (amended): whenever the ascending scan of a table finds a first
matching segment, `calculate` returns the linear interpolation of that
segment rounded to the nearest integer — with ties rounded to even
(Python's `round`), not half-up. -/
theorem c1_round_formula (c : ℚ) (bp : Breakpoint) :
    (firstMatch pm25_breakpoints c = some bp →
      (calculate_aqi_pm25 c).index =
        some (pythonRound (interp bp.lo bp.hi bp.ilo bp.ihi c))) ∧
    (firstMatch co_breakpoints c = some bp →
      (calculate_aqi_co c).index =
        some (pythonRound (interp bp.lo bp.hi bp.ilo bp.ihi c))) := by
  constructor
  · intro h
    unfold calculate_aqi_pm25
    rw [scan_of_firstMatch _ _ _ h]
  · intro h
    unfold calculate_aqi_co
    rw [scan_of_firstMatch _ _ _ h]

/-- Witness for `c1_round_formula` at PM2.5 concentration 10, whose first
matching segment is `[0, 12] → [0, 50]`. -/
theorem c1_round_formula_witness :
    (calculate_aqi_pm25 10).index =
      some (pythonRound (interp 0 12 0 50 10)) := by
  have h : firstMatch pm25_breakpoints 10 = some ⟨0, 12, 0, 50, "Bueno", "#00E400"⟩ := by
    unfold pm25_breakpoints
    rw [firstMatch_cons,
      if_pos ⟨show (0 : ℚ) ≤ 10 by norm_num, show (10 : ℚ) ≤ 12 by norm_num⟩]
  exact (c1_round_formula 10 ⟨0, 12, 0, 50, "Bueno", "#00E400"⟩).1 h

/-- C4: at every declared segment boundary of the PM2.5 and CO tables the
computed index equals the boundary's declared index; in particular
PM2.5 = 12.0 gives 50 and PM2.5 = 12.1 gives 51. -/
theorem c4_boundary_indices :
    (calculate_aqi_pm25 0).index = some 0 ∧
    (calculate_aqi_pm25 12).index = some 50 ∧
    (calculate_aqi_pm25 12.1).index = some 51 ∧
    (calculate_aqi_pm25 35.4).index = some 100 ∧
    (calculate_aqi_pm25 35.5).index = some 101 ∧
    (calculate_aqi_pm25 55.4).index = some 150 ∧
    (calculate_aqi_pm25 55.5).index = some 151 ∧
    (calculate_aqi_pm25 150.4).index = some 200 ∧
    (calculate_aqi_pm25 150.5).index = some 201 ∧
    (calculate_aqi_pm25 250.4).index = some 300 ∧
    (calculate_aqi_pm25 250.5).index = some 301 ∧
    (calculate_aqi_pm25 500.4).index = some 500 ∧
    (calculate_aqi_co 0).index = some 0 ∧
    (calculate_aqi_co 4.4).index = some 50 ∧
    (calculate_aqi_co 4.5).index = some 51 ∧
    (calculate_aqi_co 9.4).index = some 100 ∧
    (calculate_aqi_co 9.5).index = some 101 ∧
    (calculate_aqi_co 12.4).index = some 150 ∧
    (calculate_aqi_co 12.5).index = some 151 ∧
    (calculate_aqi_co 15.4).index = some 200 ∧
    (calculate_aqi_co 15.5).index = some 201 ∧
    (calculate_aqi_co 30.4).index = some 300 ∧
    (calculate_aqi_co 30.5).index = some 301 ∧
    (calculate_aqi_co 50.4).index = some 500 := by
  refine ⟨?_, ?_, ?_, ?_, ?_, ?_, ?_, ?_, ?_, ?_, ?_, ?_,
    ?_, ?_, ?_, ?_, ?_, ?_, ?_, ?_, ?_, ?_, ?_, ?_⟩
  · rw [pm25_eval1 (by norm_num) (by norm_num)]; norm_num [interp, pythonRound]
  · rw [pm25_eval1 (by norm_num) (by norm_num)]; norm_num [interp, pythonRound]
  · rw [pm25_eval2 (by norm_num) (by norm_num)]; norm_num [interp, pythonRound]
  · rw [pm25_eval2 (by norm_num) (by norm_num)]; norm_num [interp, pythonRound]
  · rw [pm25_eval3 (by norm_num) (by norm_num)]; norm_num [interp, pythonRound]
  · rw [pm25_eval3 (by norm_num) (by norm_num)]; norm_num [interp, pythonRound]
  · rw [pm25_eval4 (by norm_num) (by norm_num)]; norm_num [interp, pythonRound]
  · rw [pm25_eval4 (by norm_num) (by norm_num)]; norm_num [interp, pythonRound]
  · rw [pm25_eval5 (by norm_num) (by norm_num)]; norm_num [interp, pythonRound]
  · rw [pm25_eval5 (by norm_num) (by norm_num)]; norm_num [interp, pythonRound]
  · rw [pm25_eval6 (by norm_num) (by norm_num)]; norm_num [interp, pythonRound]
  · rw [pm25_eval6 (by norm_num) (by norm_num)]; norm_num [interp, pythonRound]
  · rw [co_eval1 (by norm_num) (by norm_num)]; norm_num [interp, pythonRound]
  · rw [co_eval1 (by norm_num) (by norm_num)]; norm_num [interp, pythonRound]
  · rw [co_eval2 (by norm_num) (by norm_num)]; norm_num [interp, pythonRound]
  · rw [co_eval2 (by norm_num) (by norm_num)]; norm_num [interp, pythonRound]
  · rw [co_eval3 (by norm_num) (by norm_num)]; norm_num [interp, pythonRound]
  · rw [co_eval3 (by norm_num) (by norm_num)]; norm_num [interp, pythonRound]
  · rw [co_eval4 (by norm_num) (by norm_num)]; norm_num [interp, pythonRound]
  · rw [co_eval4 (by norm_num) (by norm_num)]; norm_num [interp, pythonRound]
  · rw [co_eval5 (by norm_num) (by norm_num)]; norm_num [interp, pythonRound]
  · rw [co_eval5 (by norm_num) (by norm_num)]; norm_num [interp, pythonRound]
  · rw [co_eval6 (by norm_num) (by norm_num)]; norm_num [interp, pythonRound]
  · rw [co_eval6 (by norm_num) (by norm_num)]; norm_num [interp, pythonRound]

/-- C6: a concentration matching no segment yields the out-of-range result
`(None, "Fuera de rango", "#000000")` — in particular at `-1` and `10000`
for both pollutants — and the function is total (no exception). -/
theorem c6_out_of_range :
    (∀ c : ℚ, (∀ bp ∈ pm25_breakpoints, ¬(bp.lo ≤ c ∧ c ≤ bp.hi)) →
      calculate_aqi_pm25 c = ⟨none, "Fuera de rango", "#000000"⟩) ∧
    (∀ c : ℚ, (∀ bp ∈ co_breakpoints, ¬(bp.lo ≤ c ∧ c ≤ bp.hi)) →
      calculate_aqi_co c = ⟨none, "Fuera de rango", "#000000"⟩) ∧
    calculate_aqi_pm25 (-1) = ⟨none, "Fuera de rango", "#000000"⟩ ∧
    calculate_aqi_pm25 10000 = ⟨none, "Fuera de rango", "#000000"⟩ ∧
    calculate_aqi_co (-1) = ⟨none, "Fuera de rango", "#000000"⟩ ∧
    calculate_aqi_co 10000 = ⟨none, "Fuera de rango", "#000000"⟩ :=
  ⟨fun _ h => scan_no_match _ _ h,
   fun _ h => scan_no_match _ _ h,
   scan_no_match _ _ no_match_pm25_neg_one,
   scan_no_match _ _ no_match_pm25_ten_thousand,
   scan_no_match _ _ no_match_co_neg_one,
   scan_no_match _ _ no_match_co_ten_thousand⟩

/-- Witness for `c6_out_of_range`: its universally quantified part applied at
the concrete concentration `-1`. -/
theorem c6_out_of_range_witness :
    calculate_aqi_pm25 (-1) = ⟨none, "Fuera de rango", "#000000"⟩ :=
  c6_out_of_range.1 (-1) no_match_pm25_neg_one

/-- C9: a PM2.5 concentration strictly inside one of the gaps between
consecutive segments (e.g. `12 < c < 12.1`) matches no segment and yields
`(None, "Fuera de rango", "#000000")`. -/
theorem c9_gap (c : ℚ)
    (h : (12 < c ∧ c < 12.1) ∨ (35.4 < c ∧ c < 35.5) ∨ (55.4 < c ∧ c < 55.5) ∨
      (150.4 < c ∧ c < 150.5) ∨ (250.4 < c ∧ c < 250.5)) :
    calculate_aqi_pm25 c = ⟨none, "Fuera de rango", "#000000"⟩ := by
  apply scan_no_match
  intro bp hbp
  simp only [pm25_breakpoints, List.mem_cons, List.not_mem_nil, or_false] at hbp
  rcases h with ⟨a, b⟩ | ⟨a, b⟩ | ⟨a, b⟩ | ⟨a, b⟩ | ⟨a, b⟩ <;>
    rcases hbp with rfl | rfl | rfl | rfl | rfl | rfl <;>
    rintro ⟨h1, h2⟩ <;> simp only [] at h1 h2 <;> linarith

/-- Witness for `c9_gap` at the concrete gap concentration `12.05`. -/
theorem c9_gap_witness :
    calculate_aqi_pm25 12.05 = ⟨none, "Fuera de rango", "#000000"⟩ :=
  c9_gap 12.05 (Or.inl ⟨by norm_num, by norm_num⟩)

/-- A concentration is covered by a table when some segment contains it. -/
def coveredBy (bps : List Breakpoint) (c : ℚ) : Prop :=
  ∃ bp ∈ bps, bp.lo ≤ c ∧ c ≤ bp.hi

lemma coveredBy_pm25_iff (c : ℚ) : coveredBy pm25_breakpoints c ↔
    (0 ≤ c ∧ c ≤ 12) ∨ ((12.1 : ℚ) ≤ c ∧ c ≤ 35.4) ∨
    ((35.5 : ℚ) ≤ c ∧ c ≤ 55.4) ∨ ((55.5 : ℚ) ≤ c ∧ c ≤ 150.4) ∨
    ((150.5 : ℚ) ≤ c ∧ c ≤ 250.4) ∨ ((250.5 : ℚ) ≤ c ∧ c ≤ 500.4) := by
  constructor
  · rintro ⟨bp, hbp, h1, h2⟩
    simp only [pm25_breakpoints, List.mem_cons, List.not_mem_nil, or_false] at hbp
    rcases hbp with rfl | rfl | rfl | rfl | rfl | rfl <;> simp only [] at h1 h2 <;> tauto
  · rintro (⟨h1, h2⟩ | ⟨h1, h2⟩ | ⟨h1, h2⟩ | ⟨h1, h2⟩ | ⟨h1, h2⟩ | ⟨h1, h2⟩)
    · exact ⟨⟨0, 12, 0, 50, "Bueno", "#00E400"⟩,
        by simp [pm25_breakpoints], h1, h2⟩
    · exact ⟨⟨12.1, 35.4, 51, 100, "Moderado", "#FFFF00"⟩,
        by simp [pm25_breakpoints], h1, h2⟩
    · exact ⟨⟨35.5, 55.4, 101, 150, "Insalubre para Grupos Sensibles", "#FF7E00"⟩,
        by simp [pm25_breakpoints], h1, h2⟩
    · exact ⟨⟨55.5, 150.4, 151, 200, "Insalubre", "#FF0000"⟩,
        by simp [pm25_breakpoints], h1, h2⟩
    · exact ⟨⟨150.5, 250.4, 201, 300, "Muy Insalubre", "#99004C"⟩,
        by simp [pm25_breakpoints], h1, h2⟩
    · exact ⟨⟨250.5, 500.4, 301, 500, "Peligroso", "#7E0023"⟩,
        by simp [pm25_breakpoints], h1, h2⟩

/-- C5: on concentrations covered by the PM2.5 table, `calculate` returns a
defined index, monotonically non-decreasing in the concentration. -/
theorem c5_monotone (c1 c2 : ℚ) (hc1 : coveredBy pm25_breakpoints c1)
    (hc2 : coveredBy pm25_breakpoints c2) (h : c1 ≤ c2) :
    ∃ a1 a2 : ℤ, (calculate_aqi_pm25 c1).index = some a1 ∧
      (calculate_aqi_pm25 c2).index = some a2 ∧ a1 ≤ a2 := by
  rw [coveredBy_pm25_iff] at hc1 hc2
  rcases hc1 with ⟨a1, b1⟩ | ⟨a1, b1⟩ | ⟨a1, b1⟩ | ⟨a1, b1⟩ | ⟨a1, b1⟩ | ⟨a1, b1⟩ <;>
    rcases hc2 with ⟨a2, b2⟩ | ⟨a2, b2⟩ | ⟨a2, b2⟩ | ⟨a2, b2⟩ | ⟨a2, b2⟩ | ⟨a2, b2⟩
  -- c1 in segment 1, c2 in segment 1
  · exact ⟨pythonRound (interp 0 12 0 50 c1), pythonRound (interp 0 12 0 50 c2),
      by rw [pm25_eval1 a1 b1], by rw [pm25_eval1 a2 b2],
      round_interp_mono (by norm_num) (by norm_num) h⟩
  -- c1 in segment 1, c2 in segment 2
  · refine ⟨pythonRound (interp 0 12 0 50 c1), pythonRound (interp 12.1 35.4 51 100 c2),
      by rw [pm25_eval1 a1 b1], by rw [pm25_eval2 a2 b2], ?_⟩
    have u : pythonRound (interp 0 12 0 50 c1) ≤ 50 :=
      round_interp_le (by norm_num) (by norm_num) b1
    have l : (51 : ℤ) ≤ pythonRound (interp 12.1 35.4 51 100 c2) :=
      le_round_interp (by norm_num) (by norm_num) a2
    omega
  -- c1 in segment 1, c2 in segment 3
  · refine ⟨pythonRound (interp 0 12 0 50 c1), pythonRound (interp 35.5 55.4 101 150 c2),
      by rw [pm25_eval1 a1 b1], by rw [pm25_eval3 a2 b2], ?_⟩
    have u : pythonRound (interp 0 12 0 50 c1) ≤ 50 :=
      round_interp_le (by norm_num) (by norm_num) b1
    have l : (101 : ℤ) ≤ pythonRound (interp 35.5 55.4 101 150 c2) :=
      le_round_interp (by norm_num) (by norm_num) a2
    omega
  -- c1 in segment 1, c2 in segment 4
  · refine ⟨pythonRound (interp 0 12 0 50 c1), pythonRound (interp 55.5 150.4 151 200 c2),
      by rw [pm25_eval1 a1 b1], by rw [pm25_eval4 a2 b2], ?_⟩
    have u : pythonRound (interp 0 12 0 50 c1) ≤ 50 :=
      round_interp_le (by norm_num) (by norm_num) b1
    have l : (151 : ℤ) ≤ pythonRound (interp 55.5 150.4 151 200 c2) :=
      le_round_interp (by norm_num) (by norm_num) a2
    omega
  -- c1 in segment 1, c2 in segment 5
  · refine ⟨pythonRound (interp 0 12 0 50 c1), pythonRound (interp 150.5 250.4 201 300 c2),
      by rw [pm25_eval1 a1 b1], by rw [pm25_eval5 a2 b2], ?_⟩
    have u : pythonRound (interp 0 12 0 50 c1) ≤ 50 :=
      round_interp_le (by norm_num) (by norm_num) b1
    have l : (201 : ℤ) ≤ pythonRound (interp 150.5 250.4 201 300 c2) :=
      le_round_interp (by norm_num) (by norm_num) a2
    omega
  -- c1 in segment 1, c2 in segment 6
  · refine ⟨pythonRound (interp 0 12 0 50 c1), pythonRound (interp 250.5 500.4 301 500 c2),
      by rw [pm25_eval1 a1 b1], by rw [pm25_eval6 a2 b2], ?_⟩
    have u : pythonRound (interp 0 12 0 50 c1) ≤ 50 :=
      round_interp_le (by norm_num) (by norm_num) b1
    have l : (301 : ℤ) ≤ pythonRound (interp 250.5 500.4 301 500 c2) :=
      le_round_interp (by norm_num) (by norm_num) a2
    omega
  -- c1 in segment 2, c2 in segment 1
  · exact absurd h (not_le.mpr (by linarith))
  -- c1 in segment 2, c2 in segment 2
  · exact ⟨pythonRound (interp 12.1 35.4 51 100 c1), pythonRound (interp 12.1 35.4 51 100 c2),
      by rw [pm25_eval2 a1 b1], by rw [pm25_eval2 a2 b2],
      round_interp_mono (by norm_num) (by norm_num) h⟩
  -- c1 in segment 2, c2 in segment 3
  · refine ⟨pythonRound (interp 12.1 35.4 51 100 c1), pythonRound (interp 35.5 55.4 101 150 c2),
      by rw [pm25_eval2 a1 b1], by rw [pm25_eval3 a2 b2], ?_⟩
    have u : pythonRound (interp 12.1 35.4 51 100 c1) ≤ 100 :=
      round_interp_le (by norm_num) (by norm_num) b1
    have l : (101 : ℤ) ≤ pythonRound (interp 35.5 55.4 101 150 c2) :=
      le_round_interp (by norm_num) (by norm_num) a2
    omega
  -- c1 in segment 2, c2 in segment 4
  · refine ⟨pythonRound (interp 12.1 35.4 51 100 c1), pythonRound (interp 55.5 150.4 151 200 c2),
      by rw [pm25_eval2 a1 b1], by rw [pm25_eval4 a2 b2], ?_⟩
    have u : pythonRound (interp 12.1 35.4 51 100 c1) ≤ 100 :=
      round_interp_le (by norm_num) (by norm_num) b1
    have l : (151 : ℤ) ≤ pythonRound (interp 55.5 150.4 151 200 c2) :=
      le_round_interp (by norm_num) (by norm_num) a2
    omega
  -- c1 in segment 2, c2 in segment 5
  · refine ⟨pythonRound (interp 12.1 35.4 51 100 c1), pythonRound (interp 150.5 250.4 201 300 c2),
      by rw [pm25_eval2 a1 b1], by rw [pm25_eval5 a2 b2], ?_⟩
    have u : pythonRound (interp 12.1 35.4 51 100 c1) ≤ 100 :=
      round_interp_le (by norm_num) (by norm_num) b1
    have l : (201 : ℤ) ≤ pythonRound (interp 150.5 250.4 201 300 c2) :=
      le_round_interp (by norm_num) (by norm_num) a2
    omega
  -- c1 in segment 2, c2 in segment 6
  · refine ⟨pythonRound (interp 12.1 35.4 51 100 c1), pythonRound (interp 250.5 500.4 301 500 c2),
      by rw [pm25_eval2 a1 b1], by rw [pm25_eval6 a2 b2], ?_⟩
    have u : pythonRound (interp 12.1 35.4 51 100 c1) ≤ 100 :=
      round_interp_le (by norm_num) (by norm_num) b1
    have l : (301 : ℤ) ≤ pythonRound (interp 250.5 500.4 301 500 c2) :=
      le_round_interp (by norm_num) (by norm_num) a2
    omega
  -- c1 in segment 3, c2 in segment 1
  · exact absurd h (not_le.mpr (by linarith))
  -- c1 in segment 3, c2 in segment 2
  · exact absurd h (not_le.mpr (by linarith))
  -- c1 in segment 3, c2 in segment 3
  · exact ⟨pythonRound (interp 35.5 55.4 101 150 c1), pythonRound (interp 35.5 55.4 101 150 c2),
      by rw [pm25_eval3 a1 b1], by rw [pm25_eval3 a2 b2],
      round_interp_mono (by norm_num) (by norm_num) h⟩
  -- c1 in segment 3, c2 in segment 4
  · refine ⟨pythonRound (interp 35.5 55.4 101 150 c1), pythonRound (interp 55.5 150.4 151 200 c2),
      by rw [pm25_eval3 a1 b1], by rw [pm25_eval4 a2 b2], ?_⟩
    have u : pythonRound (interp 35.5 55.4 101 150 c1) ≤ 150 :=
      round_interp_le (by norm_num) (by norm_num) b1
    have l : (151 : ℤ) ≤ pythonRound (interp 55.5 150.4 151 200 c2) :=
      le_round_interp (by norm_num) (by norm_num) a2
    omega
  -- c1 in segment 3, c2 in segment 5
  · refine ⟨pythonRound (interp 35.5 55.4 101 150 c1), pythonRound (interp 150.5 250.4 201 300 c2),
      by rw [pm25_eval3 a1 b1], by rw [pm25_eval5 a2 b2], ?_⟩
    have u : pythonRound (interp 35.5 55.4 101 150 c1) ≤ 150 :=
      round_interp_le (by norm_num) (by norm_num) b1
    have l : (201 : ℤ) ≤ pythonRound (interp 150.5 250.4 201 300 c2) :=
      le_round_interp (by norm_num) (by norm_num) a2
    omega
  -- c1 in segment 3, c2 in segment 6
  · refine ⟨pythonRound (interp 35.5 55.4 101 150 c1), pythonRound (interp 250.5 500.4 301 500 c2),
      by rw [pm25_eval3 a1 b1], by rw [pm25_eval6 a2 b2], ?_⟩
    have u : pythonRound (interp 35.5 55.4 101 150 c1) ≤ 150 :=
      round_interp_le (by norm_num) (by norm_num) b1
    have l : (301 : ℤ) ≤ pythonRound (interp 250.5 500.4 301 500 c2) :=
      le_round_interp (by norm_num) (by norm_num) a2
    omega
  -- c1 in segment 4, c2 in segment 1
  · exact absurd h (not_le.mpr (by linarith))
  -- c1 in segment 4, c2 in segment 2
  · exact absurd h (not_le.mpr (by linarith))
  -- c1 in segment 4, c2 in segment 3
  · exact absurd h (not_le.mpr (by linarith))
  -- c1 in segment 4, c2 in segment 4
  · exact ⟨pythonRound (interp 55.5 150.4 151 200 c1), pythonRound (interp 55.5 150.4 151 200 c2),
      by rw [pm25_eval4 a1 b1], by rw [pm25_eval4 a2 b2],
      round_interp_mono (by norm_num) (by norm_num) h⟩
  -- c1 in segment 4, c2 in segment 5
  · refine ⟨pythonRound (interp 55.5 150.4 151 200 c1), pythonRound (interp 150.5 250.4 201 300 c2),
      by rw [pm25_eval4 a1 b1], by rw [pm25_eval5 a2 b2], ?_⟩
    have u : pythonRound (interp 55.5 150.4 151 200 c1) ≤ 200 :=
      round_interp_le (by norm_num) (by norm_num) b1
    have l : (201 : ℤ) ≤ pythonRound (interp 150.5 250.4 201 300 c2) :=
      le_round_interp (by norm_num) (by norm_num) a2
    omega
  -- c1 in segment 4, c2 in segment 6
  · refine ⟨pythonRound (interp 55.5 150.4 151 200 c1), pythonRound (interp 250.5 500.4 301 500 c2),
      by rw [pm25_eval4 a1 b1], by rw [pm25_eval6 a2 b2], ?_⟩
    have u : pythonRound (interp 55.5 150.4 151 200 c1) ≤ 200 :=
      round_interp_le (by norm_num) (by norm_num) b1
    have l : (301 : ℤ) ≤ pythonRound (interp 250.5 500.4 301 500 c2) :=
      le_round_interp (by norm_num) (by norm_num) a2
    omega
  -- c1 in segment 5, c2 in segment 1
  · exact absurd h (not_le.mpr (by linarith))
  -- c1 in segment 5, c2 in segment 2
  · exact absurd h (not_le.mpr (by linarith))
  -- c1 in segment 5, c2 in segment 3
  · exact absurd h (not_le.mpr (by linarith))
  -- c1 in segment 5, c2 in segment 4
  · exact absurd h (not_le.mpr (by linarith))
  -- c1 in segment 5, c2 in segment 5
  · exact ⟨pythonRound (interp 150.5 250.4 201 300 c1), pythonRound (interp 150.5 250.4 201 300 c2),
      by rw [pm25_eval5 a1 b1], by rw [pm25_eval5 a2 b2],
      round_interp_mono (by norm_num) (by norm_num) h⟩
  -- c1 in segment 5, c2 in segment 6
  · refine ⟨pythonRound (interp 150.5 250.4 201 300 c1), pythonRound (interp 250.5 500.4 301 500 c2),
      by rw [pm25_eval5 a1 b1], by rw [pm25_eval6 a2 b2], ?_⟩
    have u : pythonRound (interp 150.5 250.4 201 300 c1) ≤ 300 :=
      round_interp_le (by norm_num) (by norm_num) b1
    have l : (301 : ℤ) ≤ pythonRound (interp 250.5 500.4 301 500 c2) :=
      le_round_interp (by norm_num) (by norm_num) a2
    omega
  -- c1 in segment 6, c2 in segment 1
  · exact absurd h (not_le.mpr (by linarith))
  -- c1 in segment 6, c2 in segment 2
  · exact absurd h (not_le.mpr (by linarith))
  -- c1 in segment 6, c2 in segment 3
  · exact absurd h (not_le.mpr (by linarith))
  -- c1 in segment 6, c2 in segment 4
  · exact absurd h (not_le.mpr (by linarith))
  -- c1 in segment 6, c2 in segment 5
  · exact absurd h (not_le.mpr (by linarith))
  -- c1 in segment 6, c2 in segment 6
  · exact ⟨pythonRound (interp 250.5 500.4 301 500 c1), pythonRound (interp 250.5 500.4 301 500 c2),
      by rw [pm25_eval6 a1 b1], by rw [pm25_eval6 a2 b2],
      round_interp_mono (by norm_num) (by norm_num) h⟩

/-- Witness for `c5_monotone` at concentrations 10 and 20. -/
theorem c5_monotone_witness :
    ∃ a1 a2 : ℤ, (calculate_aqi_pm25 10).index = some a1 ∧
      (calculate_aqi_pm25 20).index = some a2 ∧ a1 ≤ a2 :=
  c5_monotone 10 20
    ⟨⟨0, 12, 0, 50, "Bueno", "#00E400"⟩, by simp [pm25_breakpoints],
      by norm_num, by norm_num⟩
    ⟨⟨12.1, 35.4, 51, 100, "Moderado", "#FFFF00"⟩, by simp [pm25_breakpoints],
      by norm_num, by norm_num⟩
    (by norm_num)

lemma pandasMax_spec (i j : Option ℤ) :
    (i = none → j = none → pandasMax i j = none) ∧
    (∀ a : ℤ, i = some a ∨ j = some a → ∃ m, pandasMax i j = some m ∧ a ≤ m) ∧
    (∀ m : ℤ, pandasMax i j = some m → i = some m ∨ j = some m) := by
  rcases i with _ | x <;> rcases j with _ | y
  · refine ⟨fun _ _ => rfl, ?_, ?_⟩
    · rintro a (h | h) <;> exact absurd h (by simp)
    · intro m hm
      exact absurd hm (by simp [pandasMax])
  · refine ⟨fun _ h => absurd h (by simp), ?_, ?_⟩
    · rintro a (h | h)
      · exact absurd h (by simp)
      · exact ⟨y, rfl, (Option.some.inj h).ge⟩
    · intro m hm
      right
      exact hm
  · refine ⟨fun h _ => absurd h (by simp), ?_, ?_⟩
    · rintro a (h | h)
      · exact ⟨x, rfl, (Option.some.inj h).ge⟩
      · exact absurd h (by simp)
    · intro m hm
      left
      exact hm
  · refine ⟨fun h _ => absurd h (by simp), ?_, ?_⟩
    · rintro a (h | h)
      · refine ⟨max x y, rfl, ?_⟩
        rw [← Option.some.inj h]
        exact le_max_left x y
      · refine ⟨max x y, rfl, ?_⟩
        rw [← Option.some.inj h]
        exact le_max_right x y
    · intro m hm
      have hmax : max x y = m := Option.some.inj hm
      rcases max_choice x y with hx | hy
      · left
        rw [← hmax, hx]
      · right
        rw [← hmax, hy]

/-- C2: the overall index is the maximum of the defined per-pollutant
indices when at least one is defined (it bounds every defined index and is
attained by one of them), and is undefined when both are undefined. -/
theorem c2_overall_max (r : Reading) :
    ((combine r).perPM25.index = none → (combine r).perCO.index = none →
      (combine r).overallIndex = none) ∧
    (∀ a : ℤ, (combine r).perPM25.index = some a ∨ (combine r).perCO.index = some a →
      ∃ m, (combine r).overallIndex = some m ∧ a ≤ m) ∧
    (∀ m : ℤ, (combine r).overallIndex = some m →
      (combine r).perPM25.index = some m ∨ (combine r).perCO.index = some m) :=
  pandasMax_spec (applyPM25 r.pm25).index (applyCO r.co).index

/-- Witness for `c2_overall_max` at the reading `{pm25: 10, co: 2}`: PM2.5's
index 42 is defined, so the overall index is defined and at least 42. -/
theorem c2_overall_max_witness :
    ∃ m : ℤ, (combine ⟨some 10, some 2, none, none, none⟩).overallIndex = some m ∧
      42 ≤ m := by
  apply (c2_overall_max ⟨some 10, some 2, none, none, none⟩).2.1 42
  left
  show (calculate_aqi_pm25 10).index = some 42
  rw [pm25_eval1 (by norm_num) (by norm_num)]
  norm_num [interp, pythonRound]

lemma pm25_valid : ∀ bp ∈ pm25_breakpoints,
    bp.lo < bp.hi ∧ 0 ≤ bp.ilo ∧ bp.ilo ≤ bp.ihi ∧ bp.ihi ≤ 500 := by
  intro bp hbp
  simp only [pm25_breakpoints, List.mem_cons, List.not_mem_nil, or_false] at hbp
  rcases hbp with rfl | rfl | rfl | rfl | rfl | rfl <;>
    exact ⟨by norm_num, by norm_num, by norm_num, by norm_num⟩

lemma co_valid : ∀ bp ∈ co_breakpoints,
    bp.lo < bp.hi ∧ 0 ≤ bp.ilo ∧ bp.ilo ≤ bp.ihi ∧ bp.ihi ≤ 500 := by
  intro bp hbp
  simp only [co_breakpoints, List.mem_cons, List.not_mem_nil, or_false] at hbp
  rcases hbp with rfl | rfl | rfl | rfl | rfl | rfl <;>
    exact ⟨by norm_num, by norm_num, by norm_num, by norm_num⟩

lemma scan_index_bounds : ∀ bps : List Breakpoint,
    (∀ bp ∈ bps, bp.lo < bp.hi ∧ 0 ≤ bp.ilo ∧ bp.ilo ≤ bp.ihi ∧ bp.ihi ≤ 500) →
    ∀ (c : ℚ) (a : ℤ), (scanBreakpoints bps c).index = some a → 0 ≤ a ∧ a ≤ 500 := by
  intro bps
  induction bps with
  | nil =>
      intro _ c a h
      simp [scan_nil] at h
  | cons hd tl ih =>
      intro hv c a h
      rw [scan_cons] at h
      by_cases hc : hd.lo ≤ c ∧ c ≤ hd.hi
      · rw [if_pos hc] at h
        obtain ⟨hlh, hilo, hii, hihi⟩ := hv hd (List.mem_cons_self hd tl)
        obtain rfl := (Option.some.inj h).symm
        have hl := le_round_interp hlh hii hc.1
        have hu := round_interp_le hlh hii hc.2
        omega
      · rw [if_neg hc] at h
        exact ih (fun bp hbp => hv bp (List.mem_cons_of_mem hd hbp)) c a h

lemma overall_index_bounds (r : Reading) (m : ℤ)
    (h : (combine r).overallIndex = some m) : 0 ≤ m ∧ m ≤ 500 := by
  have h' : (applyPM25 r.pm25).index = some m ∨ (applyCO r.co).index = some m :=
    (pandasMax_spec _ _).2.2 m h
  rcases h' with h' | h'
  · rcases hp : r.pm25 with _ | c
    · rw [hp] at h'
      simp [applyPM25] at h'
    · rw [hp] at h'
      exact scan_index_bounds pm25_breakpoints pm25_valid c m h'
  · rcases hp : r.co with _ | c
    · rw [hp] at h'
      simp [applyCO] at h'
    · rw [hp] at h'
      exact scan_index_bounds co_breakpoints co_valid c m h'

/-- The ordered severity categories of the spec's data model. -/
inductive Severity where
  | Good
  | Moderate
  | UnhealthyForSensitive
  | Unhealthy
  | VeryUnhealthy
  | Hazardous
deriving DecidableEq, Repr

/-- The fixed vocabulary mapping each severity to the code's literal
Spanish string. -/
def severityName : Severity → String
  | .Good => "Bueno"
  | .Moderate => "Moderado"
  | .UnhealthyForSensitive => "Insalubre para Grupos Sensibles"
  | .Unhealthy => "Insalubre"
  | .VeryUnhealthy => "Muy Insalubre"
  | .Hazardous => "Peligroso"

/-- The spec's classification of an overall index against the general AQI
thresholds (0-50 Good, 51-100 Moderate, 101-150 UnhealthyForSensitive,
151-200 Unhealthy, 201-300 VeryUnhealthy, 301-500 Hazardous); `none` stands
for the "OutOfRange" outcome.  Written from the spec's words, to be compared
with the code's `aqiCategory`. -/
def specOverallCategory : Option ℤ → Option Severity
  | none => none
  | some a =>
      if 0 ≤ a ∧ a ≤ 50 then some .Good
      else if 51 ≤ a ∧ a ≤ 100 then some .Moderate
      else if 101 ≤ a ∧ a ≤ 150 then some .UnhealthyForSensitive
      else if 151 ≤ a ∧ a ≤ 200 then some .Unhealthy
      else if 201 ≤ a ∧ a ≤ 300 then some .VeryUnhealthy
      else if 301 ≤ a ∧ a ≤ 500 then some .Hazardous
      else none

/-- Rendering of the spec-side classification: a severity's fixed string, or
the code's "Fuera de rango" for the OutOfRange outcome. -/
def specCategoryName : Option Severity → String
  | none => "Fuera de rango"
  | some s => severityName s

lemma aqiCategory_eq_spec (oi : Option ℤ)
    (hb : ∀ a : ℤ, oi = some a → 0 ≤ a ∧ a ≤ 500) :
    aqiCategory oi = specCategoryName (specOverallCategory oi) := by
  rcases oi with _ | a
  · rfl
  · obtain ⟨h0, h500⟩ := hb a rfl
    simp only [aqiCategory, npSelect, nanLe, specOverallCategory, specCategoryName,
      severityName, decide_eq_true_eq]
    split_ifs <;> first | rfl | omega

/-- C3: the overall category is the re-classification of the overall index
against the general AQI thresholds, with the "Fuera de rango" (OutOfRange)
outcome exactly when the overall index is undefined — not the maximum of the
per-pollutant categories. -/
theorem c3_reclassify (r : Reading) :
    (combine r).overallCategory =
      specCategoryName (specOverallCategory (combine r).overallIndex) :=
  aqiCategory_eq_spec _ (fun a ha => overall_index_bounds r a ha)

/-- C7: for a reading with missing PM2.5 and CO = 5, the PM2.5 entry carries
no index (only CO's result is defined), the combination is total, and the
overall index equals the CO-derived index 56. -/
theorem c7_missing_pm25 :
    (combine ⟨none, some 5, none, none, none⟩).perPM25.index = none ∧
    (combine ⟨none, some 5, none, none, none⟩).perCO.index = some 56 ∧
    (combine ⟨none, some 5, none, none, none⟩).overallIndex = some 56 := by
  have hco : (calculate_aqi_co 5).index = some 56 := by
    rw [co_eval2 (by norm_num) (by norm_num)]
    norm_num [interp, pythonRound]
  refine ⟨rfl, hco, ?_⟩
  show pandasMax none (calculate_aqi_co 5).index = some 56
  rw [hco]
  rfl

/-- C8: for the reading `{pm25: 200, co: 1}` the PM2.5 index is 250 (inside
`[201, 300]`), it dominates CO's low index, the overall index equals the
PM2.5-derived index, and the overall category is "Muy Insalubre"
(VeryUnhealthy). -/
theorem c8_combined :
    (combine ⟨some 200, some 1, none, none, none⟩).perPM25.index = some 250 ∧
    ((201 : ℤ) ≤ 250 ∧ (250 : ℤ) ≤ 300) ∧
    (combine ⟨some 200, some 1, none, none, none⟩).overallIndex =
      (combine ⟨some 200, some 1, none, none, none⟩).perPM25.index ∧
    (combine ⟨some 200, some 1, none, none, none⟩).overallCategory =
      "Muy Insalubre" := by
  have hpm : (calculate_aqi_pm25 200).index = some 250 := by
    rw [pm25_eval5 (by norm_num) (by norm_num)]
    norm_num [interp, pythonRound]
  have hco : (calculate_aqi_co 1).index = some 11 := by
    rw [co_eval1 (by norm_num) (by norm_num)]
    norm_num [interp, pythonRound]
  have hov : (combine ⟨some 200, some 1, none, none, none⟩).overallIndex = some 250 := by
    show pandasMax (calculate_aqi_pm25 200).index (calculate_aqi_co 1).index = some 250
    rw [hpm, hco]
    decide
  refine ⟨hpm, ⟨by norm_num, by norm_num⟩, ?_, ?_⟩
  · rw [hov]
    exact hpm.symm
  · show aqiCategory (pandasMax (calculate_aqi_pm25 200).index (calculate_aqi_co 1).index) =
      "Muy Insalubre"
    rw [hpm, hco]
    decide

/-- C10: readings agreeing on pm25 and co — whatever their pm10, temperature
and humidity — get identical per-pollutant results, overall index, category
and color: the pass-through fields do not influence the AQI computation. -/
theorem c10_noninterference (r1 r2 : Reading) (hpm : r1.pm25 = r2.pm25)
    (hco : r1.co = r2.co) : combine r1 = combine r2 := by
  unfold combine
  rw [hpm, hco]

/-- Witness for `c10_noninterference`: two concrete readings differing in
pm10, temperature and humidity combine identically. -/
theorem c10_noninterference_witness :
    combine ⟨some 10, some 2, some 50, some 20, some 60⟩ =
      combine ⟨some 10, some 2, none, some 0, some 1⟩ :=
  c10_noninterference _ _ rfl rfl
